import Mathlib

/-!
Shallow embedding of the mmaptwo library (mmaptwo.h / mmaptwo.c) in Lean 4,
together with theorems settling the specification claims about it.

Modelling conventions:
* size_t values are natural numbers; where the C code computes with the
  all-ones constant (~(size_t)0u) we use mmaptwo_size_max = 2^64 - 1
  (the LP64 value).  Overflow-guarded additions in the source are modelled
  with plain Nat addition, which agrees with the C computation exactly on
  the guarded paths.
* Native platform calls (open, fcntl, calloc, sysconf, fstat, mmap,
  GetSystemInfo, CreateFileMapping, MapViewOfFile) are modelled by an
  environment record carrying their results; a none result models the
  failure return (NULL respectively -1) that the library code tests for.
* Failure returns of the library are an Except value; the error constructor
  records which errno value, if any, the library itself assigned on that
  path (edom, erange), or that the failure is surfaced only through the
  NULL return with errno untouched by the library itself.
* Reading an uninitialized local variable (which the source does for
  fullshift when the queried granularity is not positive) is modelled by
  an explicit junk field of the environment holding the indeterminate
  value that the read yields.
-/

/-- Failure modes of the modelled library calls.  Each constructor records
which path of the C code produced the NULL return: edom and erange are the
paths on which the library assigns errno itself; openFail, allocFail,
fcntlFail, mapViewFail and cfmFail are NULL returns on which errno is
whatever the failing native call set (the native error is left to
propagate); mmapFail is the unix path on which the mmap result compared
equal to NULL — the test the source performs, though not the sentinel
mmap actually fails with; nullRet marks the win32 open paths that return NULL without
touching errno at all; eilseq and erangeEnc are the errno codes returned
by value from the UTF-8 transcoder shim. -/
inductive MmapErr where
  | edom
  | erange
  | openFail
  | allocFail
  | fcntlFail
  | mmapFail
  | mapViewFail
  | cfmFail
  | nullRet
  | eilseq
  | erangeEnc
  deriving DecidableEq

/-- The all-ones size_t value (~(size_t)0u) on an LP64 platform. -/
def mmaptwo_size_max : Nat := 2 ^ 64 - 1

/-- struct mmaptwo_mode_tag: one char-valued field per recognized mode
letter.  The field named end in the source is called end_ here because
end is reserved in Lean. -/
structure mmaptwo_mode_tag where
  mode : Nat
  end_ : Nat
  privy : Nat
  bequeath : Nat
  deriving DecidableEq

/-- Body of the switch statement inside mmaptwo_mode_parse: the effect of
one scanned character c on the accumulated tag (the NUL case is handled
by the loop itself). -/
def mmaptwo_mode_upd (c : Nat) (out : mmaptwo_mode_tag) : mmaptwo_mode_tag :=
  if c = 0x77 then { out with mode := 0x77 }
  else if c = 0x72 then { out with mode := 0x72 }
  else if c = 0x65 then { out with end_ := 0x65 }
  else if c = 0x70 then { out with privy := 0x70 }
  else if c = 0x71 then { out with bequeath := 0x71 }
  else out

/-- The for loop of mmaptwo_mode_parse: scans at most the fuel argument
(8 at the top entry) characters, stopping early at a NUL. -/
def mmaptwo_mode_parse_loop : List Nat → Nat → mmaptwo_mode_tag → mmaptwo_mode_tag
  | _, 0, out => out
  | [], _, out => out
  | c :: rest, k + 1, out =>
    if c = 0 then out
    else mmaptwo_mode_parse_loop rest k (mmaptwo_mode_upd c out)

/-- mmaptwo_mode_parse: extract a mode tag from a mode text, scanning at
most 8 characters.  The C string argument is modelled as the list of its
bytes before the terminating NUL. -/
def mmaptwo_mode_parse (mmode : List Nat) : mmaptwo_mode_tag :=
  mmaptwo_mode_parse_loop mmode 8 ⟨0, 0, 0, 0⟩

lemma mmaptwo_mode_upd_mode (c : Nat) (out : mmaptwo_mode_tag) :
    (mmaptwo_mode_upd c out).mode =
      if c = 0x77 then 0x77 else if c = 0x72 then 0x72 else out.mode := by
  unfold mmaptwo_mode_upd
  split_ifs <;> simp_all

lemma mmaptwo_mode_upd_end (c : Nat) (out : mmaptwo_mode_tag) :
    (mmaptwo_mode_upd c out).end_ = if c = 0x65 then 0x65 else out.end_ := by
  unfold mmaptwo_mode_upd
  split_ifs <;> simp_all

lemma mmaptwo_mode_upd_privy (c : Nat) (out : mmaptwo_mode_tag) :
    (mmaptwo_mode_upd c out).privy = if c = 0x70 then 0x70 else out.privy := by
  unfold mmaptwo_mode_upd
  split_ifs <;> simp_all

lemma mmaptwo_mode_upd_bequeath (c : Nat) (out : mmaptwo_mode_tag) :
    (mmaptwo_mode_upd c out).bequeath = if c = 0x71 then 0x71 else out.bequeath := by
  unfold mmaptwo_mode_upd
  split_ifs <;> simp_all

lemma mmaptwo_mode_parse_loop_end (l : List Nat) (k : Nat) (out : mmaptwo_mode_tag)
    (hk : l.length ≤ k) (hz : 0 ∉ l) :
    (mmaptwo_mode_parse_loop l k out).end_ = if 0x65 ∈ l then 0x65 else out.end_ := by
  induction l generalizing k out with
  | nil => cases k <;> simp [mmaptwo_mode_parse_loop]
  | cons c rest ih =>
    cases k with
    | zero => simp at hk
    | succ k =>
      have hc : c ≠ 0 := fun h => hz (by simp [h])
      rw [mmaptwo_mode_parse_loop, if_neg hc,
        ih k _ (by simpa using hk) (fun h => hz (List.mem_cons_of_mem _ h)),
        mmaptwo_mode_upd_end]
      by_cases h1 : (0x65 : Nat) ∈ rest <;> by_cases h2 : c = 0x65 <;>
        simp [h1, h2, List.mem_cons, eq_comm]

lemma mmaptwo_mode_parse_loop_privy (l : List Nat) (k : Nat) (out : mmaptwo_mode_tag)
    (hk : l.length ≤ k) (hz : 0 ∉ l) :
    (mmaptwo_mode_parse_loop l k out).privy = if 0x70 ∈ l then 0x70 else out.privy := by
  induction l generalizing k out with
  | nil => cases k <;> simp [mmaptwo_mode_parse_loop]
  | cons c rest ih =>
    cases k with
    | zero => simp at hk
    | succ k =>
      have hc : c ≠ 0 := fun h => hz (by simp [h])
      rw [mmaptwo_mode_parse_loop, if_neg hc,
        ih k _ (by simpa using hk) (fun h => hz (List.mem_cons_of_mem _ h)),
        mmaptwo_mode_upd_privy]
      by_cases h1 : (0x70 : Nat) ∈ rest <;> by_cases h2 : c = 0x70 <;>
        simp [h1, h2, List.mem_cons, eq_comm]

lemma mmaptwo_mode_parse_loop_bequeath (l : List Nat) (k : Nat) (out : mmaptwo_mode_tag)
    (hk : l.length ≤ k) (hz : 0 ∉ l) :
    (mmaptwo_mode_parse_loop l k out).bequeath = if 0x71 ∈ l then 0x71 else out.bequeath := by
  induction l generalizing k out with
  | nil => cases k <;> simp [mmaptwo_mode_parse_loop]
  | cons c rest ih =>
    cases k with
    | zero => simp at hk
    | succ k =>
      have hc : c ≠ 0 := fun h => hz (by simp [h])
      rw [mmaptwo_mode_parse_loop, if_neg hc,
        ih k _ (by simpa using hk) (fun h => hz (List.mem_cons_of_mem _ h)),
        mmaptwo_mode_upd_bequeath]
      by_cases h1 : (0x71 : Nat) ∈ rest <;> by_cases h2 : c = 0x71 <;>
        simp [h1, h2, List.mem_cons, eq_comm]

lemma mmaptwo_mode_parse_loop_mode (l : List Nat) (k : Nat) (out : mmaptwo_mode_tag)
    (hk : l.length ≤ k) (hz : 0 ∉ l) (hrw : ¬(0x72 ∈ l ∧ 0x77 ∈ l)) :
    (mmaptwo_mode_parse_loop l k out).mode =
      if 0x72 ∈ l then 0x72 else if 0x77 ∈ l then 0x77 else out.mode := by
  induction l generalizing k out with
  | nil => cases k <;> simp [mmaptwo_mode_parse_loop]
  | cons c rest ih =>
    cases k with
    | zero => simp at hk
    | succ k =>
      have hc : c ≠ 0 := fun h => hz (by simp [h])
      have hrw2 : ¬(0x72 ∈ rest ∧ 0x77 ∈ rest) := by
        intro h
        exact hrw ⟨List.mem_cons_of_mem _ h.1, List.mem_cons_of_mem _ h.2⟩
      rw [mmaptwo_mode_parse_loop, if_neg hc,
        ih k _ (by simpa using hk) (fun h => hz (List.mem_cons_of_mem _ h)) hrw2,
        mmaptwo_mode_upd_mode]
      by_cases hc1 : c = 0x72 <;> by_cases hc2 : c = 0x77 <;>
        by_cases h1 : (0x72 : Nat) ∈ rest <;> by_cases h2 : (0x77 : Nat) ∈ rest <;>
        simp_all [List.mem_cons, eq_comm]

/-- Value of mmaptwo_mode_parse as a pure function of which of the five
recognized characters occur in the scanned text, valid when the text fits
inside the 8-character scan window, has no embedded NUL, and does not
contain both r and w (which share the mode field). -/
lemma mmaptwo_mode_parse_char (l : List Nat) (h8 : l.length ≤ 8) (hz : 0 ∉ l)
    (hrw : ¬(0x72 ∈ l ∧ 0x77 ∈ l)) :
    mmaptwo_mode_parse l =
      ⟨if 0x72 ∈ l then 0x72 else if 0x77 ∈ l then 0x77 else 0,
       if 0x65 ∈ l then 0x65 else 0,
       if 0x70 ∈ l then 0x70 else 0,
       if 0x71 ∈ l then 0x71 else 0⟩ := by
  have hm := mmaptwo_mode_parse_loop_mode l 8 ⟨0, 0, 0, 0⟩ h8 hz hrw
  have he := mmaptwo_mode_parse_loop_end l 8 ⟨0, 0, 0, 0⟩ h8 hz
  have hp := mmaptwo_mode_parse_loop_privy l 8 ⟨0, 0, 0, 0⟩ h8 hz
  have hb := mmaptwo_mode_parse_loop_bequeath l 8 ⟨0, 0, 0, 0⟩ h8 hz
  unfold mmaptwo_mode_parse
  cases hq : mmaptwo_mode_parse_loop l 8 ⟨0, 0, 0, 0⟩ with
  | mk m e p b =>
    rw [hq] at hm he hp hb
    simp only [mmaptwo_mode_tag.mk.injEq]
    exact ⟨hm, he, hp, hb⟩

/-- C8 counterexample: the mode texts rw and wr contain exactly the same
set of recognized characters, yet parse to different mode tags, because
r and w both write the single mode field (last seen wins).  This refutes
the claim that equal character sets always give equal tags. -/
theorem mmaptwo_mode_parse_rw_order_counter :
    mmaptwo_mode_parse [0x72, 0x77] ≠ mmaptwo_mode_parse [0x77, 0x72] := by
  decide

/-- C8 (amended): the mode-tag parse is order-insensitive and
duplicate-tolerant for mode texts that fit in the 8-character scan window,
contain no embedded NUL, and do not contain both r and w: two such texts
with the same set of recognized characters (r, w, e, p, q) parse to the
same mode tag, arbitrary unrecognized characters interspersed. -/
theorem mmaptwo_mode_parse_set_determined (l1 l2 : List Nat)
    (h81 : l1.length ≤ 8) (h82 : l2.length ≤ 8)
    (hz1 : 0 ∉ l1) (hz2 : 0 ∉ l2)
    (hrw : ¬(0x72 ∈ l1 ∧ 0x77 ∈ l1))
    (hmem : ∀ c ∈ [0x72, 0x77, 0x65, 0x70, 0x71], ((c ∈ l1) ↔ (c ∈ l2))) :
    mmaptwo_mode_parse l1 = mmaptwo_mode_parse l2 := by
  have m72 := hmem 0x72 (by simp)
  have m77 := hmem 0x77 (by simp)
  have m65 := hmem 0x65 (by simp)
  have m70 := hmem 0x70 (by simp)
  have m71 := hmem 0x71 (by simp)
  have hrw2 : ¬(0x72 ∈ l2 ∧ 0x77 ∈ l2) := by
    intro h
    exact hrw ⟨m72.mpr h.1, m77.mpr h.2⟩
  rw [mmaptwo_mode_parse_char l1 h81 hz1 hrw,
    mmaptwo_mode_parse_char l2 h82 hz2 hrw2]
  simp only [m72, m77, m65, m70, m71]

/-- C8 witness: a concrete instance of the amended order-insensitivity,
comparing the text rep with the text xpper (same recognized set, different
order, a duplicate p and an unrecognized x interspersed). -/
theorem mmaptwo_mode_parse_set_determined_w :
    mmaptwo_mode_parse [0x72, 0x65, 0x70] =
      mmaptwo_mode_parse [0x78, 0x70, 0x70, 0x65, 0x72] :=
  mmaptwo_mode_parse_set_determined _ _ (by decide) (by decide) (by decide)
    (by decide) (by decide) (by decide)

/-- POSIX open flag values (Linux LP64): O_RDONLY is numerically zero,
which is what makes the rw-conversion failure value indistinguishable
from a read-only request at the native open call. -/
def O_RDONLY : Nat := 0

/-- POSIX O_RDWR flag value. -/
def O_RDWR : Nat := 2

/-- Linux O_CLOEXEC flag value (octal 02000000). -/
def O_CLOEXEC : Nat := 524288

/-- POSIX PROT_READ value. -/
def PROT_READ : Nat := 1

/-- POSIX PROT_WRITE value. -/
def PROT_WRITE : Nat := 2

/-- POSIX MAP_SHARED value. -/
def MAP_SHARED : Nat := 1

/-- POSIX MAP_PRIVATE value. -/
def MAP_PRIVATE : Nat := 2

/-- The POSIX MAP_FAILED sentinel, the value mmap returns on failure:
the cast of -1 to a pointer, i.e. the all-ones address on LP64 — a
nonzero value, distinct from NULL. -/
def MAP_FAILED : Nat := 2 ^ 64 - 1

/-- mmaptwo_mode_rw_cvt (unix): mode char to POSIX open flags; the
documented failure value of the conversion is 0, which coincides with
O_RDONLY.  O_CLOEXEC is the fast no-bequeath bit. -/
def mmaptwo_mode_rw_cvt_unix (mmode : Nat) : Nat :=
  if mmode = 0x77 then O_RDWR ||| O_CLOEXEC
  else if mmode = 0x72 then O_RDONLY ||| O_CLOEXEC
  else 0

/-- mmaptwo_mode_prot_cvt (unix): mode char to mmap protection flags;
returns 0 (PROT_NONE) for a tag carrying no access capability. -/
def mmaptwo_mode_prot_cvt_unix (mmode : Nat) : Nat :=
  if mmode = 0x77 then PROT_WRITE ||| PROT_READ
  else if mmode = 0x72 then PROT_READ
  else 0

/-- mmaptwo_mode_flag_cvt (unix): private flag to mmap sharing flag. -/
def mmaptwo_mode_flag_cvt (mprivy : Nat) : Nat :=
  if mprivy ≠ 0 then MAP_PRIVATE else MAP_SHARED

/-- struct mmaptwo_unix (current API shape): the mapping record holds the
logical window length and offset, the descriptor and the parsed tag. -/
structure mmaptwo_unix where
  len : Nat
  offnum : Nat
  fd : Int
  mt : mmaptwo_mode_tag
  deriving DecidableEq

/-- struct mmaptwo_page_unix: base pointer (modelled as an address),
mapped length, alignment shift and the caller-requested offset. -/
structure mmaptwo_page_unix where
  ptr : Nat
  len : Nat
  shift : Nat
  offnum : Nat
  deriving DecidableEq

/-- Environment for the unix backend: results of the native calls made by
the library, plus the indeterminate value denoted junk that a read of the
uninitialized local fullshift yields when sysconf reports a non-positive
page size.  openResult maps the open flags to the returned descriptor
(none models the -1 failure return); mmapResult maps the arguments of the
mmap call (length, protection, sharing flags, descriptor, file offset) to
the address mmap returns: a valid mapping address on success, and the
MAP_FAILED sentinel — the nonzero all-ones address, never NULL — on
failure, which is what POSIX specifies. -/
structure UnixEnv where
  psize : Int
  callocOk : Bool
  fcntlOk : Bool
  fileSize : Nat
  junk : Nat
  openResult : Nat → Option Int
  mmapResult : Nat → Nat → Nat → Int → Nat → Nat

/-- mmaptwo_open_rest (unix, current API shape): allocate the record,
assign the close-on-exec flag per the bequeath tag, resolve the length
for an end-of-file mapping, reject a zero resolved length with EDOM, and
build the mapping record. -/
def mmaptwo_open_rest_unix (env : UnixEnv) (fd : Int) (mt : mmaptwo_mode_tag)
    (sz0 off : Nat) : Except MmapErr mmaptwo_unix :=
  if env.callocOk = false then .error .allocFail
  else if env.fcntlOk = false then .error .fcntlFail
  else
    let sz := if mt.end_ ≠ 0 then
        (if env.fileSize < off then 0 else env.fileSize - off)
      else sz0
    if sz = 0 then .error .edom
    else .ok ⟨sz, off, fd, mt⟩

/-- mmaptwo_open (unix): parse the mode, convert it to open flags, call
the native open, and finish with mmaptwo_open_rest. -/
def mmaptwo_open_unix (env : UnixEnv) (mode : List Nat) (sz off : Nat) :
    Except MmapErr mmaptwo_unix :=
  let mt := mmaptwo_mode_parse mode
  match env.openResult (mmaptwo_mode_rw_cvt_unix mt.mode) with
  | none => .error .openFail
  | some fd => mmaptwo_open_rest_unix env fd mt sz off

/-- mmaptwo_mmt_length (unix): the mapping reports its stored length. -/
def mmaptwo_mmt_length_unix (mu : mmaptwo_unix) : Nat :=
  mu.len

/-- mmaptwo_mmt_offset (unix): the mapping reports its stored offset. -/
def mmaptwo_mmt_offset_unix (mu : mmaptwo_unix) : Nat :=
  mu.offnum

/-- mmaptwo_mmt_acquire (unix): validate the sub-range against the
mapping's window, allocate the page record, align the absolute offset
down to the page size reported by sysconf (when positive; otherwise the
local fullshift is read uninitialized, modelled by env.junk), guard the
size adjustment against wraparound, call mmap and build the page.
The source tests the mmap result against NULL (ptr equal to 0), which is
modelled verbatim; note that this is not the sentinel mmap actually uses
for failure (MAP_FAILED). -/
def mmaptwo_mmt_acquire_unix (env : UnixEnv) (mu : mmaptwo_unix)
    (sz pre_off : Nat) : Except MmapErr mmaptwo_page_unix :=
  if pre_off > mu.len ∨ sz > mu.len - pre_off ∨ sz = 0 then .error .edom
  else
    let off := pre_off + mu.offnum
    if env.callocOk = false then .error .allocFail
    else if 0 < env.psize then
      let fullshift := off % env.psize.toNat
      let fulloff := off - fullshift
      if fullshift ≥ mmaptwo_size_max - sz then .error .erange
      else
        let fullsize := sz + fullshift
        let ptr := env.mmapResult fullsize (mmaptwo_mode_prot_cvt_unix mu.mt.mode)
          (mmaptwo_mode_flag_cvt mu.mt.privy) mu.fd fulloff
        if ptr = 0 then .error .mmapFail
        else .ok ⟨ptr, fullsize, fullshift, pre_off⟩
    else
      let fullshift := env.junk
      let fulloff := off
      let fullsize := sz
      let ptr := env.mmapResult fullsize (mmaptwo_mode_prot_cvt_unix mu.mt.mode)
        (mmaptwo_mode_flag_cvt mu.mt.privy) mu.fd fulloff
      if ptr = 0 then .error .mmapFail
      else .ok ⟨ptr, fullsize, fullshift, pre_off⟩

/-- mmaptwo_mmtp_length (unix): the page reports its mapped length minus
its alignment shift. -/
def mmaptwo_mmtp_length_unix (pg : mmaptwo_page_unix) : Nat :=
  pg.len - pg.shift

/-- mmaptwo_mmtp_offset (unix): the page reports the caller-requested
offset stored at acquire time. -/
def mmaptwo_mmtp_offset_unix (pg : mmaptwo_page_unix) : Nat :=
  pg.offnum

/-- mmaptwo_mmtp_get (unix): pointer to the caller-visible start, the base
pointer advanced by the alignment shift. -/
def mmaptwo_mmtp_get_unix (pg : mmaptwo_page_unix) : Nat :=
  pg.ptr + pg.shift

/-- Windows FILE_MAP_WRITE value. -/
def FILE_MAP_WRITE : Nat := 2

/-- Windows FILE_MAP_READ value. -/
def FILE_MAP_READ : Nat := 4

/-- Windows FILE_MAP_COPY value. -/
def FILE_MAP_COPY : Nat := 1

/-- Windows PAGE_READONLY value. -/
def PAGE_READONLY : Nat := 2

/-- Windows PAGE_READWRITE value. -/
def PAGE_READWRITE : Nat := 4

/-- mmaptwo_mode_prot_cvt (win32): mode char to CreateFileMapping
protection flag; 0 for a tag without access capability. -/
def mmaptwo_mode_prot_cvt_win32 (mmode : Nat) : Nat :=
  if mmode = 0x77 then PAGE_READWRITE
  else if mmode = 0x72 then PAGE_READONLY
  else 0

/-- mmaptwo_mode_access_cvt (win32): tag to MapViewOfFile desired-access
flags, adding FILE_MAP_COPY for a private mapping. -/
def mmaptwo_mode_access_cvt (mt : mmaptwo_mode_tag) : Nat :=
  if mt.mode = 0x77 then
    (FILE_MAP_READ ||| FILE_MAP_WRITE) ||| (if mt.privy ≠ 0 then FILE_MAP_COPY else 0)
  else if mt.mode = 0x72 then
    FILE_MAP_READ ||| (if mt.privy ≠ 0 then FILE_MAP_COPY else 0)
  else 0

/-- struct mmaptwo_win32 (current API shape): length and shift of the
authority window, the two handles, the caller-requested offset and the
tag. -/
structure mmaptwo_win32 where
  len : Nat
  shift : Nat
  fmd : Nat
  fd : Nat
  offnum : Nat
  mt : mmaptwo_mode_tag
  deriving DecidableEq

/-- struct mmaptwo_page_win32: same data as the unix page record. -/
structure mmaptwo_page_win32 where
  ptr : Nat
  len : Nat
  shift : Nat
  offnum : Nat
  deriving DecidableEq

/-- Environment for the win32 backend: psize is the allocation
granularity reported by GetSystemInfo, fileSize the GetFileSizeEx result,
junk the indeterminate value read from the uninitialized local fullshift
when psize is 0.  createFileMapping maps (protection, maximum size) to
the returned handle, mapViewOfFile maps (desired access, file offset,
bytes to map) to the returned address; none models the NULL failure
return in both cases. -/
structure Win32Env where
  psize : Nat
  callocOk : Bool
  fileSize : Nat
  junk : Nat
  createFileMapping : Nat → Nat → Option Nat
  mapViewOfFile : Nat → Nat → Nat → Option Nat

/-- The tail of mmaptwo_open_rest (win32): the code after the
granularity block — the second wraparound guard, the clamp of the
authority extent to the file size, the CreateFileMapping call and the
construction of the mapping record. -/
def mmaptwo_open_rest_win32_tail (env : Win32Env) (fd : Nat)
    (mt : mmaptwo_mode_tag) (off fullsize fullshift fulloff extended_size : Nat) :
    Except MmapErr mmaptwo_win32 :=
  if fulloff ≥ mmaptwo_size_max - extended_size then .error .erange
  else
    let fullextent :=
      if env.fileSize > extended_size + fulloff then extended_size + fulloff
      else env.fileSize
    match env.createFileMapping (mmaptwo_mode_prot_cvt_win32 mt.mode) fullextent with
    | none => .error .cfmFail
    | some fmd => .ok ⟨fullsize, fullshift, fmd, fd, off, mt⟩

/-- mmaptwo_open_rest (win32, current API shape): allocate the record,
resolve the length for an end-of-file mapping (rejecting offset beyond
the file) or reject a zero size in the non-end case — both rejections
return NULL without assigning errno — then align following the source
(note the source sets fullshift to the whole offset here, making the
authority start at file offset 0, and leaves fullshift uninitialized
when the granularity is 0: env.junk), guard the size addition against
wraparound, and finish with the shared tail. -/
def mmaptwo_open_rest_win32 (env : Win32Env) (fd : Nat) (mt : mmaptwo_mode_tag)
    (sz0 off : Nat) : Except MmapErr mmaptwo_win32 :=
  if env.callocOk = false then .error .allocFail
  else if mt.end_ ≠ 0 ∧ env.fileSize < off then .error .nullRet
  else if mt.end_ = 0 ∧ sz0 = 0 then .error .nullRet
  else
    let sz := if mt.end_ ≠ 0 then env.fileSize - off else sz0
    if 0 < env.psize then
      let fullshift := off
      let fulloff := off - fullshift
      if fullshift ≥ mmaptwo_size_max - sz then .error .erange
      else
        let fullsize := sz + fullshift
        let size_shift := fullsize % env.psize
        let extended_size :=
          if 0 < size_shift then fullsize + (env.psize - size_shift) else fullsize
        mmaptwo_open_rest_win32_tail env fd mt off fullsize fullshift fulloff extended_size
    else
      mmaptwo_open_rest_win32_tail env fd mt off sz env.junk off sz

/-- mmaptwo_mmt_length (win32): the mapping reports its stored length
minus its stored shift. -/
def mmaptwo_mmt_length_win32 (mw : mmaptwo_win32) : Nat :=
  mw.len - mw.shift

/-- mmaptwo_mmt_offset (win32): the mapping reports its stored offset. -/
def mmaptwo_mmt_offset_win32 (mw : mmaptwo_win32) : Nat :=
  mw.offnum

/-- mmaptwo_mmt_acquire (win32): allocate the page record, validate the
sub-range against the shifted window length, align the absolute offset to
the allocation granularity (when positive; otherwise the local fullshift
is read uninitialized, modelled by env.junk), guard the size adjustment,
translate the offset back to the file-mapping object's window, call
MapViewOfFile and build the page. -/
def mmaptwo_mmt_acquire_win32 (env : Win32Env) (mw : mmaptwo_win32)
    (sz pre_off : Nat) : Except MmapErr mmaptwo_page_win32 :=
  if env.callocOk = false then .error .allocFail
  else
    let shifted_len := mw.len - mw.shift
    if pre_off > shifted_len ∨ sz > shifted_len - pre_off ∨ sz = 0 then .error .edom
    else
      let off := pre_off + mw.offnum
      if 0 < env.psize then
        let fullshift := off % env.psize
        let fulloff := off - fullshift
        if fullshift ≥ mmaptwo_size_max - sz then .error .erange
        else
          let fullsize := sz + fullshift
          let fulloff2 := fulloff - (mw.offnum - mw.shift)
          match env.mapViewOfFile (mmaptwo_mode_access_cvt mw.mt) fulloff2 fullsize with
          | none => .error .mapViewFail
          | some ptr => .ok ⟨ptr, fullsize, fullshift, pre_off⟩
      else
        let fullshift := env.junk
        let fulloff := off
        let fullsize := sz
        let fulloff2 := fulloff - (mw.offnum - mw.shift)
        match env.mapViewOfFile (mmaptwo_mode_access_cvt mw.mt) fulloff2 fullsize with
        | none => .error .mapViewFail
        | some ptr => .ok ⟨ptr, fullsize, fullshift, pre_off⟩

/-- mmaptwo_mmtp_length (win32): mapped length minus alignment shift. -/
def mmaptwo_mmtp_length_win32 (pg : mmaptwo_page_win32) : Nat :=
  pg.len - pg.shift

/-- mmaptwo_mmtp_offset (win32): the caller-requested offset stored at
acquire time. -/
def mmaptwo_mmtp_offset_win32 (pg : mmaptwo_page_win32) : Nat :=
  pg.offnum

/-- Result of calling a public helper through a possibly-NULL instance
pointer: ok is a normal return (carrying, for the close helpers, whether
the virtual destructor was invoked), nullDeref marks an unconditional
dereference of a NULL argument (undefined behavior in the source). -/
inductive CallResult (α : Type) where
  | ok (val : α)
  | nullDeref
  deriving DecidableEq

/-- mmaptwo_page_close: checks its argument against NULL before invoking
the destructor; the returned Bool tells whether the destructor ran. -/
def mmaptwo_page_close (p : Option mmaptwo_page_unix) : CallResult Bool :=
  match p with
  | none => .ok false
  | some _ => .ok true

/-- mmaptwo_close: checks its argument against NULL before invoking the
destructor; the returned Bool tells whether the destructor ran. -/
def mmaptwo_close (m : Option mmaptwo_unix) : CallResult Bool :=
  match m with
  | none => .ok false
  | some _ => .ok true

/-- mmaptwo_acquire: dereferences its argument unconditionally to reach
the virtual acquire entry. -/
def mmaptwo_acquire (env : UnixEnv) (m : Option mmaptwo_unix) (siz off : Nat) :
    CallResult (Except MmapErr mmaptwo_page_unix) :=
  match m with
  | none => .nullDeref
  | some mu => .ok (mmaptwo_mmt_acquire_unix env mu siz off)

/-- mmaptwo_page_get: dereferences its argument unconditionally. -/
def mmaptwo_page_get (p : Option mmaptwo_page_unix) : CallResult Nat :=
  match p with
  | none => .nullDeref
  | some pg => .ok (mmaptwo_mmtp_get_unix pg)

/-- mmaptwo_page_get_const: dereferences its argument unconditionally. -/
def mmaptwo_page_get_const (p : Option mmaptwo_page_unix) : CallResult Nat :=
  match p with
  | none => .nullDeref
  | some pg => .ok (mmaptwo_mmtp_get_unix pg)

/-- mmaptwo_page_length: dereferences its argument unconditionally. -/
def mmaptwo_page_length (p : Option mmaptwo_page_unix) : CallResult Nat :=
  match p with
  | none => .nullDeref
  | some pg => .ok (mmaptwo_mmtp_length_unix pg)

/-- mmaptwo_page_offset: dereferences its argument unconditionally. -/
def mmaptwo_page_offset (p : Option mmaptwo_page_unix) : CallResult Nat :=
  match p with
  | none => .nullDeref
  | some pg => .ok (mmaptwo_mmtp_offset_unix pg)

/-- mmaptwo_length: dereferences its argument unconditionally. -/
def mmaptwo_length (m : Option mmaptwo_unix) : CallResult Nat :=
  match m with
  | none => .nullDeref
  | some mu => .ok (mmaptwo_mmt_length_unix mu)

/-- mmaptwo_offset: dereferences its argument unconditionally. -/
def mmaptwo_offset (m : Option mmaptwo_unix) : CallResult Nat :=
  match m with
  | none => .nullDeref
  | some mu => .ok (mmaptwo_mmt_offset_unix mu)

/-- The scan-limit constant of mmaptwo_u8towc_shim: UINT_MAX/2u-4u with
a 32-bit unsigned int. -/
def mmaptwo_sz_max : Nat := 2147483643

/-- The inner continuation-byte loop of mmaptwo_u8towc_shim.  The list
argument is the input tail starting at the pointer p, i.e. starting AT
the lead byte, because the source reads *(p+i) with i counting from 0;
the count argument is the loop bound (1, 2 or 3) and qv the accumulator
seeded from the lead byte's payload bits. -/
def mmaptwo_ext_scan : List Nat → Nat → Nat → Except MmapErr Nat
  | _, 0, qv => .ok qv
  | l, k + 1, qv =>
    let v1 := l.headD 0
    if v1 < 0x80 ∨ 0xC0 ≤ v1 then .error .eilseq
    else mmaptwo_ext_scan l.tail k ((qv <<< 6) ||| (v1 &&& 63))

/-- The main loop of mmaptwo_u8towc_shim, accumulating the UTF-16 units
it would store through the out pointer; n is the output length so far.
The input C string is modelled as the list of its bytes before the
terminating NUL.  Mirrors the source: the loop exits successfully at the
NUL or once n reaches the scan limit; a byte in 0x80..0xBF is an invalid
lead; for the 2-, 3- and 4-byte forms the continuation check starts at
*(p+0), the lead byte itself; a 4-byte scalar at or above 0x10FFFF, or a
lead at or above 0xF8, is rejected with EILSEQ.  The fuel argument makes
the recursion structural; every iteration consumes at least one input
byte and one unit of fuel, so the entry wrapper's fuel of length + 1 is
never exhausted and the fuel-out value is unreachable. -/
def mmaptwo_u8towc_loop : Nat → List Nat → Nat → Except MmapErr (List Nat)
  | 0, _, _ => .ok []
  | _, [], _ => .ok []
  | fuel + 1, v :: rest, n =>
    if v = 0 then .ok []
    else if ¬ n < mmaptwo_sz_max then .ok []
    else if mmaptwo_sz_max ≤ n then .error .erangeEnc
    else if v < 0x80 then
      match mmaptwo_u8towc_loop fuel rest (n + 1) with
      | .error e => .error e
      | .ok ws => .ok (v :: ws)
    else if v < 0xC0 then .error .eilseq
    else if v < 0xE0 then
      match mmaptwo_ext_scan (v :: rest) 1 (v &&& 31) with
      | .error e => .error e
      | .ok qv =>
        match mmaptwo_u8towc_loop fuel (rest.drop 1) (n + 1) with
        | .error e => .error e
        | .ok ws => .ok (qv :: ws)
    else if v < 0xF0 then
      match mmaptwo_ext_scan (v :: rest) 2 (v &&& 15) with
      | .error e => .error e
      | .ok qv =>
        match mmaptwo_u8towc_loop fuel (rest.drop 2) (n + 1) with
        | .error e => .error e
        | .ok ws => .ok (qv :: ws)
    else if v < 0xF8 then
      match mmaptwo_ext_scan (v :: rest) 3 (v &&& 3) with
      | .error e => .error e
      | .ok qv =>
        if 0x10FFFF ≤ qv then .error .eilseq
        else
          let qv2 := qv - 0x10000
          match mmaptwo_u8towc_loop fuel (rest.drop 3) (n + 2) with
          | .error e => .error e
          | .ok ws =>
            .ok ((0xD800 ||| ((qv2 >>> 10) &&& 1023)) :: (0xDC00 ||| (qv2 &&& 1023)) :: ws)
    else .error .eilseq

/-- mmaptwo_u8towc_shim on a whole input string: the loop entered with
enough fuel for the whole input. -/
def mmaptwo_u8towc_shim (nm : List Nat) : Except MmapErr (List Nat) :=
  mmaptwo_u8towc_loop (nm.length + 1) nm 0

/-- mmaptwo_u8towc: run the shim once for the length, then (on success)
again to fill the buffer; a nonzero shim result makes it return NULL. -/
def mmaptwo_u8towc (nm : List Nat) : Option (List Nat) :=
  match mmaptwo_u8towc_shim nm with
  | .error _ => none
  | .ok ws => some ws

/-- Mode tag for a plain read-only open (mode text r). -/
def readTag : mmaptwo_mode_tag := ⟨0x72, 0, 0, 0⟩

/-- Mode tag for a read, extend-to-end-of-file open (mode text re). -/
def reTag : mmaptwo_mode_tag := ⟨0x72, 0x65, 0, 0⟩

/-- A healthy unix environment: 4096-byte pages, all native calls
succeed, file of 5000 bytes. -/
def envOkU : UnixEnv :=
  ⟨4096, true, true, 5000, 0, fun _ => some 3, fun _ _ _ _ _ => 4096000⟩

/-- A unix environment in which sysconf reports page size 0, so the
library reads the uninitialized local fullshift; the indeterminate value
read happens to be 1.  All native calls succeed. -/
def envJunkU : UnixEnv :=
  ⟨0, true, true, 0, 1, fun _ => some 3, fun _ _ _ _ _ => 1000⟩

/-- A unix environment in which every mmap call fails: per POSIX, a
failing mmap returns the MAP_FAILED sentinel, not NULL. -/
def envMapFailU : UnixEnv :=
  ⟨4096, true, true, 5000, 0, fun _ => some 3, fun _ _ _ _ _ => MAP_FAILED⟩

/-- A unix environment for the no-access-mode open: the native open call
is given flag value 0, which POSIX defines to be a legal read-only
request (O_RDONLY is numerically 0), so on an existing readable file it
succeeds and returns a descriptor. -/
def envC7 : UnixEnv :=
  ⟨4096, true, true, 500, 0, fun _ => some 3, fun _ _ _ _ _ => 1000⟩

/-- A unix environment whose file is 5 bytes long, for the
extend-to-end-of-file boundary cases. -/
def envEof5 : UnixEnv :=
  ⟨4096, true, true, 5, 0, fun _ => some 3, fun _ _ _ _ _ => 1000⟩

/-- A healthy win32 environment: 65536-byte allocation granularity, all
native calls succeed, file of 5000 bytes. -/
def envOkW : Win32Env :=
  ⟨65536, true, 5000, 0, fun _ _ => some 77, fun _ _ _ => some 4096000⟩

/-- A win32 environment in which GetSystemInfo reports granularity 0, so
the library reads the uninitialized local fullshift; the indeterminate
value read happens to be 1. -/
def envJunkW : Win32Env :=
  ⟨0, true, 5000, 1, fun _ _ => some 77, fun _ _ _ => some 1000⟩

/-- A win32 environment whose file is 5 bytes long, for the
extend-to-end-of-file boundary cases. -/
def envWinEof : Win32Env :=
  ⟨4096, true, 5, 0, fun _ _ => some 77, fun _ _ _ => some 1000⟩

/-- A win32 environment in which every MapViewOfFile call fails. -/
def envNoMapW : Win32Env :=
  ⟨65536, true, 5000, 0, fun _ _ => some 77, fun _ _ _ => none⟩

/-- C1: the acquire operation on both backends rejects, with errno EDOM
and a NULL return, any request with off beyond the mapping length, or sz
beyond length - off, or sz zero; consequently every request for which
acquire returns a page satisfies off + sz at most the mapping length (and
sz nonzero), so the page never covers bytes outside the mapping's window.
The win32 conjuncts assume the page-record allocation succeeds, because
that backend allocates the record before validating (on allocation
failure it still returns NULL, with errno untouched rather than EDOM). -/
theorem mmaptwo_acquire_window_bounds (envU : UnixEnv) (envW : Win32Env)
    (mu : mmaptwo_unix) (mw : mmaptwo_win32) (sz off : Nat) :
    ((off > mmaptwo_mmt_length_unix mu ∨ sz > mmaptwo_mmt_length_unix mu - off ∨ sz = 0) →
      mmaptwo_mmt_acquire_unix envU mu sz off = .error .edom) ∧
    (envW.callocOk = true →
      (off > mmaptwo_mmt_length_win32 mw ∨ sz > mmaptwo_mmt_length_win32 mw - off ∨ sz = 0) →
      mmaptwo_mmt_acquire_win32 envW mw sz off = .error .edom) ∧
    (∀ p, mmaptwo_mmt_acquire_unix envU mu sz off = .ok p →
      off + sz ≤ mmaptwo_mmt_length_unix mu ∧ sz ≠ 0) ∧
    (∀ q, mmaptwo_mmt_acquire_win32 envW mw sz off = .ok q →
      off + sz ≤ mmaptwo_mmt_length_win32 mw ∧ sz ≠ 0) := by
  refine ⟨?_, ?_, ?_, ?_⟩
  · intro h
    simp only [mmaptwo_mmt_length_unix] at h
    unfold mmaptwo_mmt_acquire_unix
    rw [if_pos h]
  · intro hc h
    simp only [mmaptwo_mmt_length_win32] at h
    simp only [mmaptwo_mmt_acquire_win32, hc]
    rw [if_neg (by simp), if_pos h]
  · intro p h
    simp only [mmaptwo_mmt_acquire_unix, mmaptwo_mmt_length_unix] at h ⊢
    split at h
    · simp at h
    · rename_i hguard
      push_neg at hguard
      exact ⟨by omega, hguard.2.2⟩
  · intro q h
    simp only [mmaptwo_mmt_acquire_win32, mmaptwo_mmt_length_win32] at h ⊢
    split at h
    · simp at h
    · split at h
      · simp at h
      · rename_i hguard
        push_neg at hguard
        exact ⟨by omega, hguard.2.2⟩

/-- C1 witness: concrete instances of each conjunct of the window-bounds
theorem: a size reaching past the window is rejected with EDOM on the
unix backend, an offset+size combination reaching past the shifted win32
window is rejected with EDOM, and a successful acquire's request lies
inside the window. -/
theorem mmaptwo_acquire_window_bounds_w :
    mmaptwo_mmt_acquire_unix envOkU ⟨10, 0, 3, readTag⟩ 11 0 = .error .edom ∧
    mmaptwo_mmt_acquire_win32 envOkW ⟨20, 10, 77, 7, 10, readTag⟩ 5 9 = .error .edom ∧
    (0 : Nat) + 10 ≤ mmaptwo_mmt_length_unix ⟨10, 0, 3, readTag⟩ := by
  refine ⟨?_, ?_, ?_⟩
  · exact (mmaptwo_acquire_window_bounds envOkU envOkW ⟨10, 0, 3, readTag⟩
      ⟨20, 10, 77, 7, 10, readTag⟩ 11 0).1 (by decide)
  · exact (mmaptwo_acquire_window_bounds envOkU envOkW ⟨10, 0, 3, readTag⟩
      ⟨20, 10, 77, 7, 10, readTag⟩ 5 9).2.1 rfl (by decide)
  · exact ((mmaptwo_acquire_window_bounds envOkU envOkW ⟨10, 0, 3, readTag⟩
      ⟨20, 10, 77, 7, 10, readTag⟩ 10 0).2.2.1 ⟨4096000, 10, 0, 0⟩ rfl).1

/-- C2 (code bug): with the queried granularity equal to 0 the source
skips the offset adjustment but never assigns the local fullshift, then
stores that uninitialized value as the page's alignment shift; with
indeterminate value 1 the acquire on each backend returns a page whose
stored shift is 1, where the specification requires the shift to be 0. -/
theorem mmaptwo_acquire_zero_granularity_junk_shift :
    mmaptwo_mmt_acquire_unix envJunkU ⟨10, 0, 3, readTag⟩ 5 0 = .ok ⟨1000, 5, 1, 0⟩ ∧
    mmaptwo_mmt_acquire_win32 envJunkW ⟨10, 0, 77, 7, 0, readTag⟩ 5 0 = .ok ⟨1000, 5, 1, 0⟩ ∧
    (⟨1000, 5, 1, 0⟩ : mmaptwo_page_unix).shift ≠ 0 :=
  ⟨rfl, rfl, by decide⟩

/-- C3 counterexample: with the queried granularity equal to 0 and
uninitialized-read value 1, a successful acquire of size 7 returns a page
that reports length 6, not the requested 7, refuting the claim that the
page always reports exactly the caller's requested size. -/
theorem mmaptwo_page_length_zero_granularity_counter :
    mmaptwo_mmt_acquire_unix envJunkU ⟨10, 0, 3, readTag⟩ 7 0 = .ok ⟨1000, 7, 1, 0⟩ ∧
    mmaptwo_mmtp_length_unix ⟨1000, 7, 1, 0⟩ ≠ 7 :=
  ⟨rfl, by decide⟩

/-- C3 (amended): provided the queried granularity is positive, every
successful acquire on either backend returns a page reporting exactly the
requested size (mapped length minus alignment shift) and the verbatim
requested offset; the offset report holds even without the granularity
hypothesis, on every success path. -/
theorem mmaptwo_page_reports_request (envU : UnixEnv) (envW : Win32Env)
    (mu : mmaptwo_unix) (mw : mmaptwo_win32) (sz off : Nat) :
    (∀ p, 0 < envU.psize → mmaptwo_mmt_acquire_unix envU mu sz off = .ok p →
      mmaptwo_mmtp_length_unix p = sz ∧ mmaptwo_mmtp_offset_unix p = off) ∧
    (∀ q, 0 < envW.psize → mmaptwo_mmt_acquire_win32 envW mw sz off = .ok q →
      mmaptwo_mmtp_length_win32 q = sz ∧ mmaptwo_mmtp_offset_win32 q = off) ∧
    (∀ p, mmaptwo_mmt_acquire_unix envU mu sz off = .ok p →
      mmaptwo_mmtp_offset_unix p = off) ∧
    (∀ q, mmaptwo_mmt_acquire_win32 envW mw sz off = .ok q →
      mmaptwo_mmtp_offset_win32 q = off) := by
  refine ⟨?_, ?_, ?_, ?_⟩
  · intro p hp h
    simp only [mmaptwo_mmt_acquire_unix] at h
    repeat' split at h
    all_goals first
      | (simp at h
         done)
      | exact absurd hp (by assumption)
      | (injection h with h
         subst h
         exact ⟨by simp [mmaptwo_mmtp_length_unix], rfl⟩)
  · intro q hp h
    simp only [mmaptwo_mmt_acquire_win32] at h
    repeat' split at h
    all_goals first
      | (simp at h
         done)
      | exact absurd hp (by assumption)
      | (injection h with h
         subst h
         exact ⟨by simp [mmaptwo_mmtp_length_win32], rfl⟩)
  · intro p h
    simp only [mmaptwo_mmt_acquire_unix] at h
    repeat' split at h
    all_goals first
      | (simp at h
         done)
      | (injection h with h
         subst h
         rfl)
  · intro q h
    simp only [mmaptwo_mmt_acquire_win32] at h
    repeat' split at h
    all_goals first
      | (simp at h
         done)
      | (injection h with h
         subst h
         rfl)

/-- C3 witness: a concrete successful acquire at positive granularity
reporting exactly the requested size 10 and offset 0. -/
theorem mmaptwo_page_reports_request_w :
    mmaptwo_mmtp_length_unix ⟨4096000, 10, 0, 0⟩ = 10 ∧
    mmaptwo_mmtp_offset_unix ⟨4096000, 10, 0, 0⟩ = 0 :=
  (mmaptwo_page_reports_request envOkU envOkW ⟨10, 0, 3, readTag⟩
    ⟨20, 10, 77, 7, 10, readTag⟩ 10 0).1 ⟨4096000, 10, 0, 0⟩ (by decide) rfl

/-- Helper: inversion of the win32 open tail — a success stores exactly
the given fullsize, fullshift and offset in the mapping record. -/
lemma mmaptwo_open_rest_win32_tail_ok (env : Win32Env) (fd : Nat)
    (mt : mmaptwo_mode_tag) (off fullsize fullshift fulloff extended_size : Nat)
    (mw : mmaptwo_win32)
    (h : mmaptwo_open_rest_win32_tail env fd mt off fullsize fullshift fulloff
      extended_size = .ok mw) :
    mw.len = fullsize ∧ mw.shift = fullshift ∧ mw.offnum = off := by
  simp only [mmaptwo_open_rest_win32_tail] at h
  split at h
  · simp at h
  · split at h
    · simp at h
    · injection h with h
      subst h
      exact ⟨rfl, rfl, rfl⟩

/-- Helper: a successful win32 open with the end-of-file flag yields a
mapping whose reported length is the file size at open minus the
requested offset (the record stores fullsize = resolved size + offset and
shift = offset, so length = len - shift = resolved size). -/
lemma mmaptwo_open_rest_win32_eof_length (env : Win32Env) (fd : Nat)
    (mt : mmaptwo_mode_tag) (sz off : Nat) (mw : mmaptwo_win32)
    (he : mt.end_ ≠ 0) (hp : 0 < env.psize)
    (h : mmaptwo_open_rest_win32 env fd mt sz off = .ok mw) :
    mmaptwo_mmt_length_win32 mw = env.fileSize - off := by
  simp only [mmaptwo_open_rest_win32] at h
  split at h
  · simp at h
  · split at h
    · simp at h
    · split at h
      · simp at h
      · repeat' split at h
        all_goals first
          | (simp at h
             done)
          | exact absurd hp (by assumption)
          | exact absurd he (by assumption)
          | (have hv := mmaptwo_open_rest_win32_tail_ok _ _ _ _ _ _ _ _ _ h
             unfold mmaptwo_mmt_length_win32
             rw [hv.1, hv.2.1]
             omega)

/-- C4 counterexample: a read, extend-to-end-of-file open of a 5-byte
file at offset 5 (an offset o with o at most the file length L) does not
yield a mapping of logical length L - o = 0; the unix backend fails the
open with errno EDOM instead. -/
theorem mmaptwo_open_eof_at_length_counter :
    mmaptwo_open_rest_unix envEof5 3 reTag 42 5 = .error .edom := rfl

/-- C4 (amended): with the end-of-file flag set, on a file of length L an
open at offset o strictly below L yields a mapping of logical length
L - o (and the requested size argument is ignored on both backends); at
o at or beyond L the unix open fails with errno EDOM; the win32 open at
o strictly beyond L fails, returning NULL without assigning errno; and,
provided the queried allocation granularity is positive, a successful
win32 end-of-file open reports length L - o. -/
theorem mmaptwo_open_extend_to_eof (envU : UnixEnv) (envW : Win32Env)
    (fd : Int) (fdw : Nat) (mt : mmaptwo_mode_tag) (sz sz2 off : Nat) :
    (mt.end_ ≠ 0 → envU.callocOk = true → envU.fcntlOk = true →
      off < envU.fileSize →
      mmaptwo_open_rest_unix envU fd mt sz off = .ok ⟨envU.fileSize - off, off, fd, mt⟩) ∧
    (mt.end_ ≠ 0 → envU.callocOk = true → envU.fcntlOk = true →
      envU.fileSize ≤ off →
      mmaptwo_open_rest_unix envU fd mt sz off = .error .edom) ∧
    (mt.end_ ≠ 0 → envW.callocOk = true → envW.fileSize < off →
      mmaptwo_open_rest_win32 envW fdw mt sz off = .error .nullRet) ∧
    (mt.end_ ≠ 0 → 0 < envW.psize → ∀ mw,
      mmaptwo_open_rest_win32 envW fdw mt sz off = .ok mw →
      mmaptwo_mmt_length_win32 mw = envW.fileSize - off) ∧
    (mt.end_ ≠ 0 →
      mmaptwo_open_rest_unix envU fd mt sz off = mmaptwo_open_rest_unix envU fd mt sz2 off ∧
      mmaptwo_open_rest_win32 envW fdw mt sz off = mmaptwo_open_rest_win32 envW fdw mt sz2 off) := by
  refine ⟨?_, ?_, ?_, ?_, ?_⟩
  · intro he hc hf ho
    simp only [mmaptwo_open_rest_unix]
    rw [if_neg (by simp [hc]), if_neg (by simp [hf]), if_pos he,
      if_neg (show ¬envU.fileSize < off by omega),
      if_neg (show ¬(envU.fileSize - off = 0) by omega)]
  · intro he hc hf ho
    simp only [mmaptwo_open_rest_unix]
    rw [if_neg (by simp [hc]), if_neg (by simp [hf]), if_pos he]
    have hz : (if envU.fileSize < off then 0 else envU.fileSize - off) = 0 := by
      split <;> omega
    rw [hz, if_pos rfl]
  · intro he hc hlt
    simp only [mmaptwo_open_rest_win32]
    rw [if_neg (by simp [hc]), if_pos ⟨he, hlt⟩]
  · intro he hp mw h
    exact mmaptwo_open_rest_win32_eof_length envW fdw mt sz off mw he hp h
  · intro he
    constructor
    · simp [mmaptwo_open_rest_unix, he]
    · simp [mmaptwo_open_rest_win32, he]

/-- C4 witness: concrete instances: an end-of-file open of a 5-byte file
at offset 2 yields length 3 and ignores the size argument; at offset 7 it
fails with EDOM on unix; a win32 end-of-file open of a 5-byte file at
offset 9 fails with the errno-less NULL return; a successful win32
end-of-file open of a 5000-byte file at offset 100 reports length
4900. -/
theorem mmaptwo_open_extend_to_eof_w :
    mmaptwo_open_rest_unix envEof5 3 reTag 42 2 = .ok ⟨3, 2, 3, reTag⟩ ∧
    mmaptwo_open_rest_unix envEof5 3 reTag 42 7 = .error .edom ∧
    mmaptwo_open_rest_win32 envWinEof 7 reTag 42 9 = .error .nullRet ∧
    mmaptwo_mmt_length_win32 ⟨5000, 100, 77, 7, 100, reTag⟩ = 4900 ∧
    mmaptwo_open_rest_unix envEof5 3 reTag 42 2 = mmaptwo_open_rest_unix envEof5 3 reTag 7 2 := by
  refine ⟨?_, ?_, ?_, ?_, ?_⟩
  · exact (mmaptwo_open_extend_to_eof envEof5 envOkW 3 7 reTag 42 7 2).1
      (by decide) rfl rfl (by decide)
  · exact (mmaptwo_open_extend_to_eof envEof5 envOkW 3 7 reTag 42 7 7).2.1
      (by decide) rfl rfl (by decide)
  · exact (mmaptwo_open_extend_to_eof envEof5 envWinEof 3 7 reTag 42 7 9).2.2.1
      (by decide) rfl (by decide)
  · exact (mmaptwo_open_extend_to_eof envEof5 envOkW 3 7 reTag 0 7 100).2.2.2.1
      (by decide) (by decide) ⟨5000, 100, 77, 7, 100, reTag⟩ rfl
  · exact ((mmaptwo_open_extend_to_eof envEof5 envOkW 3 7 reTag 42 7 2).2.2.2.2
      (by decide)).1

/-- C5 counterexample: on the win32 backend an end-of-file open of a
5-byte file at offset 5 resolves to logical length 0 yet succeeds (the
explicit zero-size rejection is only in the non-end branch), returning a
mapping that reports length 0 — refuting the claim that a zero resolved
length always fails and a zero-length mapping is never returned. -/
theorem mmaptwo_open_zero_length_win32_counter :
    mmaptwo_open_rest_win32 envWinEof 7 reTag 0 5 = .ok ⟨5, 5, 77, 7, 5, reTag⟩ ∧
    mmaptwo_mmt_length_win32 ⟨5, 5, 77, 7, 5, reTag⟩ = 0 := ⟨rfl, rfl⟩

/-- C5 (amended): the unix open rejects every zero resolved length with
errno EDOM (size 0 without the end flag, or file size at most offset with
it); the win32 open rejects a zero size without the end flag, returning
NULL without assigning errno; but with the end flag and file size equal
to the offset the win32 zero check is skipped and any successful open
returns a mapping reporting length 0. -/
theorem mmaptwo_open_zero_length_rejection (envU : UnixEnv) (envW : Win32Env)
    (fd : Int) (fdw : Nat) (mt : mmaptwo_mode_tag) (sz off : Nat) :
    (envU.callocOk = true → envU.fcntlOk = true →
      ((mt.end_ = 0 ∧ sz = 0) ∨ (mt.end_ ≠ 0 ∧ envU.fileSize ≤ off)) →
      mmaptwo_open_rest_unix envU fd mt sz off = .error .edom) ∧
    (envW.callocOk = true → mt.end_ = 0 → sz = 0 →
      mmaptwo_open_rest_win32 envW fdw mt sz off = .error .nullRet) ∧
    (mt.end_ ≠ 0 → 0 < envW.psize → envW.fileSize = off → ∀ mw,
      mmaptwo_open_rest_win32 envW fdw mt sz off = .ok mw →
      mmaptwo_mmt_length_win32 mw = 0) := by
  refine ⟨?_, ?_, ?_⟩
  · intro hc hf hcase
    simp only [mmaptwo_open_rest_unix]
    rw [if_neg (by simp [hc]), if_neg (by simp [hf])]
    rcases hcase with ⟨he0, hsz⟩ | ⟨he, hle⟩
    · rw [if_neg (show ¬mt.end_ ≠ 0 by simp [he0]), hsz, if_pos rfl]
    · rw [if_pos he]
      have hz : (if envU.fileSize < off then 0 else envU.fileSize - off) = 0 := by
        split <;> omega
      rw [hz, if_pos rfl]
  · intro hc he0 hsz
    simp only [mmaptwo_open_rest_win32]
    rw [if_neg (by simp [hc]),
      if_neg (show ¬(mt.end_ ≠ 0 ∧ envW.fileSize < off) by simp [he0]),
      if_pos (⟨he0, hsz⟩ : mt.end_ = 0 ∧ sz = 0)]
  · intro he hp hfo mw h
    rw [mmaptwo_open_rest_win32_eof_length envW fdw mt sz off mw he hp h, hfo]
    simp

/-- C5 witness: concrete instances: a unix open with size 0 and no end
flag fails with EDOM; a win32 open with size 0 and no end flag returns
NULL without errno; a successful win32 end-of-file open at offset equal
to the 5-byte file size reports length 0. -/
theorem mmaptwo_open_zero_length_rejection_w :
    mmaptwo_open_rest_unix envEof5 3 readTag 0 0 = .error .edom ∧
    mmaptwo_open_rest_win32 envOkW 7 readTag 0 0 = .error .nullRet ∧
    mmaptwo_mmt_length_win32 ⟨5, 5, 77, 7, 5, reTag⟩ = 0 := by
  refine ⟨?_, ?_, ?_⟩
  · exact (mmaptwo_open_zero_length_rejection envEof5 envOkW 3 7 readTag 0 0).1
      rfl rfl (Or.inl ⟨rfl, rfl⟩)
  · exact (mmaptwo_open_zero_length_rejection envEof5 envOkW 3 7 readTag 0 0).2.1
      rfl rfl rfl
  · exact (mmaptwo_open_zero_length_rejection envEof5 envWinEof 3 7 reTag 0 5).2.2
      (by decide) (by decide) rfl ⟨5, 5, 77, 7, 5, reTag⟩ rfl

/-- C6 (code bug): mmap reports failure by returning the MAP_FAILED
sentinel — the cast of -1 to a pointer, a nonzero all-ones address —
never NULL, but the unix acquire tests its result against NULL only, so
a failing mmap call slips past the test and acquire returns a Page
wrapping MAP_FAILED instead of the claimed NULL return: a garbage Page
is returned on native view-creation failure.  The win32 half behaves as
the claim says: MapViewOfFile signals failure with NULL, which the code
catches, freeing the record and returning NULL with the native error
left in place. -/
theorem mmaptwo_acquire_mmap_failed_page :
    mmaptwo_mmt_acquire_unix envMapFailU ⟨10, 0, 3, readTag⟩ 10 0 =
      .ok ⟨MAP_FAILED, 10, 0, 0⟩ ∧
    MAP_FAILED ≠ 0 ∧
    mmaptwo_mmt_acquire_win32 envNoMapW ⟨20, 10, 77, 7, 10, readTag⟩ 5 0 =
      .error .mapViewFail :=
  ⟨rfl, by decide, rfl⟩

/-- C7 (code bug): a mode text with neither r nor w parses to a tag with
mode field 0; the unix rw conversion maps that tag to the flag value 0 —
its own documented failure value — but mmaptwo_open passes it straight to
the native open, where 0 is the legal O_RDONLY request, so on an existing
readable file the open succeeds and a usable mapping record is returned
instead of the failure the specification requires. -/
theorem mmaptwo_open_no_access_not_rejected :
    (mmaptwo_mode_parse [0x78]).mode = 0 ∧
    mmaptwo_mode_rw_cvt_unix (mmaptwo_mode_parse [0x78]).mode = O_RDONLY ∧
    mmaptwo_open_unix envC7 [0x78] 10 0 = .ok ⟨10, 0, 3, ⟨0, 0, 0, 0⟩⟩ :=
  ⟨rfl, rfl, rfl⟩

/-- C9 (code bug): the UTF-8 transcoder shim rejects the well-formed
4-byte sequence F0 90 80 80 (U+10000) with EILSEQ instead of producing
the surrogate pair D800 DC00, because its continuation-byte loop reads
*(p+0) — the lead byte itself, which is always at least 0xC0 — so every
multi-byte sequence fails; plain ASCII still transcodes. -/
theorem mmaptwo_u8_multibyte_rejected :
    mmaptwo_u8towc_shim [0xF0, 0x90, 0x80, 0x80] = .error .eilseq ∧
    mmaptwo_u8towc [0xF0, 0x90, 0x80, 0x80] = none ∧
    mmaptwo_u8towc_shim [0x41, 0x42] = .ok [0x41, 0x42] :=
  ⟨rfl, rfl, rfl⟩

/-- C10: the close helpers check their argument against NULL and return
without invoking any destructor on a NULL argument, while the other
public helpers (acquire, the data-pointer getters, the length and offset
queries) dereference their argument unconditionally, so a NULL argument
reaches a NULL dereference; a non-NULL argument makes the close helpers
invoke the destructor. -/
theorem mmaptwo_helper_null_handling (env : UnixEnv) (sz off : Nat) :
    mmaptwo_page_close none = CallResult.ok false ∧
    mmaptwo_close none = CallResult.ok false ∧
    mmaptwo_acquire env none sz off = CallResult.nullDeref ∧
    mmaptwo_page_get none = CallResult.nullDeref ∧
    mmaptwo_page_get_const none = CallResult.nullDeref ∧
    mmaptwo_page_length none = CallResult.nullDeref ∧
    mmaptwo_page_offset none = CallResult.nullDeref ∧
    mmaptwo_length none = CallResult.nullDeref ∧
    mmaptwo_offset none = CallResult.nullDeref ∧
    (∀ pg : mmaptwo_page_unix, mmaptwo_page_close (some pg) = CallResult.ok true) ∧
    (∀ mm : mmaptwo_unix, mmaptwo_close (some mm) = CallResult.ok true) :=
  ⟨rfl, rfl, rfl, rfl, rfl, rfl, rfl, rfl, rfl, fun _ => rfl, fun _ => rfl⟩
